import Mathlib

/-!
Shallow embedding of `src/tx-store-app/index.py`: a Flask application with
two handlers over a single MySQL table `transactions`.

* `get_records` serves `GET /records`: it obtains `mysql.connection` and
  calls `conn.cursor(dictionary=True)`.  Under `flask_mysqldb` the
  connection is a MySQLdb connection, whose `cursor` method accepts no
  `dictionary` keyword, so that call raises `TypeError` on every request,
  before the select ever runs.  The handler body has no `try`/`except`,
  so the exception (or a connection failure) escapes the handler uncaught;
  the `jsonify(records)` line is unreachable.
* `add_record` serves `POST /records`: it extracts fields from the JSON
  body with `dict.get`, checks `all([...])` over the five required values
  (Python truthiness), converts `amount` with `float(...)` catching only
  `ValueError`, builds the stored `datetime` by string-concatenating the
  caller's `date` with the shell-captured time of day, inserts one row and
  returns 201 with `cursor.lastrowid`; the whole body is wrapped in
  `try ... except Exception`, which maps any raised error to a 500 JSON
  response.

JSON values are modelled by `JValue` (numbers as exact rationals), the
database by a list of rows plus the next auto-increment id, and the
environment (wall-clock read through `os.popen('date +%H:%M:%S')`, and
possible store failure) by `Env`.
-/

namespace TxStore

/-- A JSON value as delivered by `request.get_json()`: Python `None`,
`bool`, numbers, `str`, `list`, `dict`. -/
inductive JValue where
  | null
  | bool (b : Bool)
  | num (q : Rat)
  | str (s : String)
  | arr (elems : List JValue)
  | obj (fields : List (String × JValue))

/-- Python truthiness of a value obtained from a JSON body, as used by
`all([description, amount, category, transaction_date, blockchain_hash])`:
`None`, `False`, zero, the empty string, the empty list and the empty dict
are falsy; everything else is truthy. -/
def truthy : JValue → Bool
  | .null => false
  | .bool b => b
  | .num q => q != 0
  | .str s => s != ""
  | .arr xs => !xs.isEmpty
  | .obj fs => !fs.isEmpty

/-- Lookup of a key in a JSON object (Python `dict` access; keys are
unique in a parsed JSON object). -/
def dictFind (d : List (String × JValue)) (k : String) : Option JValue :=
  (d.find? (fun p => p.1 == k)).map (fun p => p.2)

/-- Python `dict.get(k, dflt)`: the stored value when the key is present
(even when that value is `None`), otherwise the default. -/
def dictGet (d : List (String × JValue)) (k : String) (dflt : JValue) : JValue :=
  (dictFind d k).getD dflt

/-- A Python float value: a finite value (kept as an exact rational),
an infinity, or NaN. -/
inductive PyFloat where
  | finite (q : Rat)
  | inf (neg : Bool)
  | nan
deriving DecidableEq

/-- Drop leading whitespace characters. -/
def dropWhileSpace : List Char → List Char
  | [] => []
  | c :: rest => if c.isWhitespace then dropWhileSpace rest else c :: rest

/-- Python `str.strip()` on the character list: remove whitespace at both
ends. -/
def pyStripChars (cs : List Char) : List Char :=
  (dropWhileSpace (dropWhileSpace cs).reverse).reverse

/-- Python `str.strip()`. -/
def pyStrip (s : String) : String :=
  String.mk (pyStripChars s.data)

/-- The code point of a character after ASCII lower-casing. -/
def lowerNat (c : Char) : Nat :=
  if 65 ≤ c.toNat && c.toNat ≤ 90 then c.toNat + 32 else c.toNat

/-- ASCII case-insensitive equality of character lists. -/
def eqCI : List Char → List Char → Bool
  | [], [] => true
  | a :: as, b :: bs => lowerNat a == lowerNat b && eqCI as bs
  | _, _ => false

/-- Consume a run of decimal digits in which single underscores may
separate digits (Python numeric-literal lexing, as accepted by `float`):
returns the accumulated value, the number of digits read, and the rest of
the input.  An underscore that is leading or not followed by a digit is
left unconsumed. -/
def digitRun : List Char → Nat → Nat → Nat × Nat × List Char
  | [], v, n => (v, n, [])
  | [c], v, n =>
    if c.isDigit then (10 * v + (c.toNat - 48), n + 1, [])
    else (v, n, [c])
  | c :: d :: rest, v, n =>
    if c.isDigit then digitRun (d :: rest) (10 * v + (c.toNat - 48)) (n + 1)
    else if c == '_' && n != 0 && d.isDigit then
      digitRun rest (10 * v + (d.toNat - 48)) (n + 1)
    else (v, n, c :: d :: rest)

/-- Optional exponent part of a Python float literal: either the input is
exhausted, or `e`/`E` followed by an optional sign and a digit run which
must consume the whole rest of the input. -/
def parseExp (cs : List Char) (mant : Rat) : Option Rat :=
  match cs with
  | [] => some mant
  | c :: rest =>
    if c == 'e' || c == 'E' then
      let signed : Bool × List Char :=
        match rest with
        | '+' :: r => (false, r)
        | '-' :: r => (true, r)
        | r => (false, r)
      let run := digitRun signed.2 0 0
      if run.2.1 == 0 then none
      else if run.2.2.isEmpty then
        some (if signed.1 then mant / (10 : Rat) ^ run.1 else mant * (10 : Rat) ^ run.1)
      else none
    else none

/-- Unsigned part of a Python float literal: `digits [. [digits]]` or
`. digits`, then an optional exponent. -/
def parseUnsigned (cs : List Char) : Option Rat :=
  match cs with
  | [] => none
  | '.' :: rest =>
    let run := digitRun rest 0 0
    if run.2.1 == 0 then none
    else parseExp run.2.2 ((run.1 : Rat) / (10 : Rat) ^ run.2.1)
  | c :: _ =>
    if c.isDigit then
      let run := digitRun cs 0 0
      match run.2.2 with
      | '.' :: rest2 =>
        let frun := digitRun rest2 0 0
        parseExp frun.2.2 ((run.1 : Rat) + (frun.1 : Rat) / (10 : Rat) ^ frun.2.1)
      | rest1 => parseExp rest1 (run.1 : Rat)
    else none

/-- Python `float(s)` on a string: strip surrounding whitespace, read an
optional sign, accept `inf`/`infinity`/`nan` case-insensitively, otherwise
parse a float literal; `none` models a raised `ValueError`. -/
def pyFloatOfString (s : String) : Option PyFloat :=
  let cs := pyStripChars s.data
  let signed : Bool × List Char :=
    match cs with
    | '+' :: r => (false, r)
    | '-' :: r => (true, r)
    | r => (false, r)
  if eqCI signed.2 "inf".data || eqCI signed.2 "infinity".data then some (.inf signed.1)
  else if eqCI signed.2 "nan".data then some .nan
  else
    match parseUnsigned signed.2 with
    | some q => some (.finite (if signed.1 then -q else q))
    | none => none

/-- The two exception classes `float(amount)` can raise: `ValueError` for a
string that does not parse (caught by the handler's inner `try`), and
`TypeError` for an argument whose type does not support conversion (not
caught there, so it reaches the outer `except Exception`). -/
inductive ConvErr where
  | valueError
  | typeError
deriving DecidableEq

/-- Python `float(x)` on a value taken from a JSON body: numbers and bools
convert, strings go through float-literal parsing and raise `ValueError`
on failure, `None`, lists and dicts raise `TypeError`. -/
def floatConv : JValue → Except ConvErr PyFloat
  | .num q => .ok (.finite q)
  | .bool b => .ok (.finite (if b then 1 else 0))
  | .str s =>
    match pyFloatOfString s with
    | some f => .ok f
    | none => .error .valueError
  | .null => .error .typeError
  | .arr _ => .error .typeError
  | .obj _ => .error .typeError

/-- Python string concatenation `v + suffix` where `suffix` is a `str`:
succeeds only when `v` is itself a string; `none` models the raised
`TypeError`. -/
def pyAddStr (v : JValue) (suffix : String) : Option String :=
  match v with
  | .str s => some (s ++ suffix)
  | _ => none

/-- One row of the `transactions` table, with the seven caller-visible
columns plus the auto-increment `id`.  `amount` is the converted float;
`datetime` is the string built by the insert handler; the remaining
columns store whatever Python value was bound as the query parameter. -/
structure Row where
  id : Nat
  description : JValue
  amount : PyFloat
  category : JValue
  datetime : String
  notes : JValue
  status : JValue
  tx_hash : JValue

/-- The state of the `transactions` table: its rows, and the next value of
the store's auto-increment id counter. -/
structure DBState where
  rows : List Row
  nextId : Nat

/-- The environment of one request: the raw output of
`os.popen('date +%H:%M:%S').read()` at the moment of insert, and, when the
store is failing, the message of the exception its operations raise. -/
structure Env where
  timeRaw : String
  dbFail : Option String

/-- An HTTP response produced by `jsonify(...), code`: a status code and a
JSON body. -/
structure Response where
  status : Nat
  body : JValue

/-- What an invocation of a handler yields at the WSGI boundary: either a
response the handler returned, or an exception that escaped the handler
uncaught. -/
inductive HttpOutcome where
  | response (r : Response)
  | uncaught (msg : String)

/-- `jsonify({"message": m})` with a status code. -/
def msgResponse (status : Nat) (m : String) : Response :=
  { status := status, body := .obj [("message", .str m)] }

/-- The `except Exception` branch of the insert handler:
`jsonify({"message": "Internal server error", "error": str(e)}), 500`. -/
def errorResponse (diag : String) : Response :=
  { status := 500
    body := .obj [("message", .str "Internal server error"), ("error", .str diag)] }

/-- The diagnostic `str(e)` of the `TypeError` raised for a `float()`
argument of an unsupported type. -/
def floatTypeErrorMsg : String :=
  "float() argument must be a string or a real number"

/-- The diagnostic `str(e)` of the `TypeError` raised when concatenating a
non-string `date` with the time-of-day string. -/
def concatTypeErrorMsg : String :=
  "can only concatenate str to str"

/-- The diagnostic of the `TypeError` raised by
`conn.cursor(dictionary=True)`: the connection `flask_mysqldb` hands out
is a MySQLdb connection, whose `cursor` method accepts only a
`cursorclass` argument — the `dictionary` keyword belongs to the
mysql-connector-python driver. -/
def cursorKwTypeErrorMsg : String :=
  "cursor() got an unexpected keyword argument 'dictionary'"

/-- The `GET /records` handler.  `conn = mysql.connection` raises when the
store is unreachable; otherwise `conn.cursor(dictionary=True)` raises
`TypeError` — MySQLdb cursors accept no `dictionary` keyword — before the
select ever runs.  The handler body contains no `try`/`except`, so either
exception escapes the handler uncaught: `cursor.execute`,
`cursor.fetchall` and `jsonify(records)` are never reached, on any state
of the table. -/
def get_records (env : Env) (db : DBState) : HttpOutcome :=
  match env.dbFail with
  | some m => .uncaught m
  | none => .uncaught cursorKwTypeErrorMsg

/-- The `POST /records` handler, `add_record`.  Mirrors the source line by
line: field extraction with `data.get` (with defaults for `notes` and
`status`), the `all([...])` required-field check, `float(amount)` with
only `ValueError` caught, connection acquisition, construction of the
`datetime` parameter by string concatenation, the row insert, commit, and
the 201 response with `cursor.lastrowid`; every exception reaching the
outer `try` produces the 500 JSON response.  Returns the response together
with the resulting table state. -/
def add_record (env : Env) (data : List (String × JValue)) (db : DBState) :
    Response × DBState :=
  let description := dictGet data "description" .null
  let amount := dictGet data "amount" .null
  let category := dictGet data "category" .null
  let transaction_date := dictGet data "date" .null
  let notes := dictGet data "notes" (.str "")
  let blockchain_hash := dictGet data "transactionHash" .null
  let status := dictGet data "status" (.str "Original")
  if !(truthy description && truthy amount && truthy category &&
       truthy transaction_date && truthy blockchain_hash) then
    (msgResponse 400 "Missing required fields", db)
  else
    match floatConv amount with
    | .error .valueError => (msgResponse 400 "Invalid amount format", db)
    | .error .typeError => (errorResponse floatTypeErrorMsg, db)
    | .ok amount_float =>
      match env.dbFail with
      | some m => (errorResponse m, db)
      | none =>
        match pyAddStr transaction_date (" " ++ pyStrip env.timeRaw) with
        | none => (errorResponse concatTypeErrorMsg, db)
        | some dt =>
          let row : Row :=
            { id := db.nextId, description := description, amount := amount_float
              category := category, datetime := dt, notes := notes
              status := status, tx_hash := blockchain_hash }
          ({ status := 201
             body := .obj [("message", .str "Record added successfully!"),
                           ("id", .num db.nextId)] },
           { rows := db.rows ++ [row], nextId := db.nextId + 1 })

/-- The handler's required-field check: the condition of
`all([description, amount, category, transaction_date, blockchain_hash])`
over the extracted values. -/
def requiredTruthy (data : List (String × JValue)) : Bool :=
  truthy (dictGet data "description" .null) && truthy (dictGet data "amount" .null) &&
  truthy (dictGet data "category" .null) && truthy (dictGet data "date" .null) &&
  truthy (dictGet data "transactionHash" .null)

/-- Whether a response body is a JSON object carrying a `message` field
(the shape of every error payload the insert handler produces). -/
def structuredMessage : JValue → Bool
  | .obj fs => fs.any (fun p => p.1 == "message")
  | _ => false

/-! ### Concrete sample data used by witnesses and counterexamples -/

/-- A healthy-store environment; the trailing newline is what
`os.popen('date +%H:%M:%S').read()` produces before `.strip()`. -/
def envW : Env := { timeRaw := "12:34:56\n", dbFail := none }

/-- An environment in which the store operations raise. -/
def envFail : Env := { timeRaw := "12:34:56\n", dbFail := some "MySQL server has gone away" }

/-- An empty table whose auto-increment counter is at 7. -/
def dbW : DBState := { rows := [], nextId := 7 }

/-- A sample stored row with an earlier timestamp. -/
def rowA : Row :=
  { id := 1, description := .str "Coffee", amount := .finite (9/2)
    category := .str "Food", datetime := "2024-01-01 08:00:00"
    notes := .str "", status := .str "Original", tx_hash := .str "0xaaa" }

/-- A sample stored row with a later timestamp. -/
def rowB : Row :=
  { id := 2, description := .str "Rent", amount := .finite 1200
    category := .str "Housing", datetime := "2024-02-01 09:30:00"
    notes := .str "", status := .str "Original", tx_hash := .str "0xbbb" }

/-- A table holding the two sample rows, oldest first. -/
def dbTwo : DBState := { rows := [rowA, rowB], nextId := 3 }

/-- A fully valid insert payload. -/
def goodBody : List (String × JValue) :=
  [("description", .str "Coffee"), ("amount", .str "4.50"),
   ("category", .str "Food"), ("date", .str "2024-01-01"),
   ("transactionHash", .str "0xabc")]

/-! ### C1 — GET /records never reaches its success path -/

/-- C1: the claim fails on the code: `GET /records` never returns HTTP 200
with the table's rows.  The MySQLdb connection behind `flask_mysqldb`
accepts no `dictionary` keyword, so `conn.cursor(dictionary=True)` raises
`TypeError` on every request, and the handler — which has no
`try`/`except` — raises uncaught even against a healthy store, here the
two-row sample table: it returns no response at all, and in particular
not the ordered listing the claim describes. -/
theorem C1_get_records_always_raises :
    get_records envW dbTwo = .uncaught cursorKwTypeErrorMsg ∧
    ∀ r : Response, get_records envW dbTwo ≠ .response r := by
  refine ⟨rfl, ?_⟩
  intro r h
  rw [show get_records envW dbTwo = .uncaught cursorKwTypeErrorMsg from rfl] at h
  exact HttpOutcome.noConfusion h

/-! ### C2 — the required-field check uses Python truthiness -/

/-- A payload in which all five required keys are present with non-null,
non-empty values, but `amount` is the number `0`. -/
def cexBody2 : List (String × JValue) :=
  [("description", .str "Refund"), ("amount", .num 0),
   ("category", .str "Misc"), ("date", .str "2024-01-01"),
   ("transactionHash", .str "0xabc")]

/-- C2 counterexample: in `cexBody2` every required field is present, none
is null, and `amount` is the number `0` (not a string, hence not empty),
yet the handler answers 400 `Missing required fields` — because `all([...])`
tests Python truthiness and `0` is falsy.  The claim's "rejects iff some
required field is missing or empty/null" is therefore false. -/
theorem C2_counterexample :
    dictFind cexBody2 "description" = some (.str "Refund") ∧
    dictFind cexBody2 "amount" = some (.num 0) ∧
    dictFind cexBody2 "category" = some (.str "Misc") ∧
    dictFind cexBody2 "date" = some (.str "2024-01-01") ∧
    dictFind cexBody2 "transactionHash" = some (.str "0xabc") ∧
    JValue.num 0 ≠ JValue.null ∧ (∀ s : String, JValue.num 0 ≠ JValue.str s) ∧
    (add_record envW cexBody2 dbW).1 = msgResponse 400 "Missing required fields" := by
  refine ⟨rfl, rfl, rfl, rfl, rfl, ?_, ?_, rfl⟩
  · intro h
    exact JValue.noConfusion h
  · intro s h
    exact JValue.noConfusion h

/-- C2 amended: the insert handler answers 400 `Missing required fields`
exactly when one of the five required values is Python-falsy — missing,
null, `false`, the number 0, the empty string, an empty array or an empty
object; every payload whose five required values are all truthy passes the
check. -/
theorem C2_missing_fields_iff (env : Env) (data : List (String × JValue))
    (db : DBState) :
    (add_record env data db).1 = msgResponse 400 "Missing required fields" ↔
      requiredTruthy data = false := by
  simp only [add_record, requiredTruthy]
  split
  next hcond =>
    simp only [Bool.not_eq_true'] at hcond
    simp [hcond]
  next hcond =>
    simp only [Bool.not_eq_true', Bool.not_eq_false] at hcond
    simp only [hcond]
    constructor
    · intro h
      exfalso
      revert h
      split
      · simp [msgResponse]
      · simp [errorResponse, msgResponse]
      · split
        · simp [errorResponse, msgResponse]
        · split
          · simp [errorResponse, msgResponse]
          · simp [msgResponse]
    · intro h
      exact absurd h (by simp)

/-! ### C3 — non-numeric amount -/

/-- A payload passing the required-field check whose `amount` is a
non-empty JSON array, a value `float()` cannot convert. -/
def cexBody3 : List (String × JValue) :=
  [("description", .str "Rent"), ("amount", .arr [.num 1]),
   ("category", .str "Housing"), ("date", .str "2024-01-01"),
   ("transactionHash", .str "0xabc")]

/-- C3 counterexample: `cexBody3` passes the required-field check and its
`amount` is not convertible to a number, yet the handler does not answer
400 `Invalid amount format`: `float([1])` raises `TypeError`, the inner
`try` catches only `ValueError`, so the outer handler answers 500. -/
theorem C3_counterexample :
    requiredTruthy cexBody3 = true ∧
    (∀ f : PyFloat, floatConv (dictGet cexBody3 "amount" .null) ≠ .ok f) ∧
    (add_record envW cexBody3 dbW).1 ≠ msgResponse 400 "Invalid amount format" ∧
    (add_record envW cexBody3 dbW).1 = errorResponse floatTypeErrorMsg := by
  refine ⟨rfl, ?_, ?_, rfl⟩
  · intro f h
    rw [show floatConv (dictGet cexBody3 "amount" .null) = .error .typeError from rfl] at h
    exact Except.noConfusion h
  · intro h
    rw [show (add_record envW cexBody3 dbW).1 = errorResponse floatTypeErrorMsg from rfl] at h
    have : (500 : Nat) = 400 := congrArg Response.status h
    omega

/-- C3 amended: when the required-field check passes and `float(amount)`
raises `ValueError` — that is, `amount` is a string that does not parse as
a float — the handler answers 400 `Invalid amount format` and leaves the
table untouched.  (A truthy `amount` of a type `float` rejects outright —
a non-empty array or object — raises `TypeError` instead, which surfaces
as a 500.) -/
theorem C3_invalid_amount (env : Env) (data : List (String × JValue))
    (db : DBState) (hreq : requiredTruthy data = true)
    (hconv : floatConv (dictGet data "amount" .null) = .error .valueError) :
    add_record env data db = (msgResponse 400 "Invalid amount format", db) := by
  have h5 := hreq
  simp only [requiredTruthy, Bool.and_eq_true] at h5
  obtain ⟨⟨⟨⟨h1, h2⟩, h3⟩, h4⟩, h5⟩ := h5
  simp [add_record, h1, h2, h3, h4, h5, hconv]

/-- C3 witness: `amount = "abc"` passes the required-field check, fails
float conversion with `ValueError`, and is answered with 400. -/
theorem C3_witness :
    add_record envW
      [("description", .str "Rent"), ("amount", .str "abc"),
       ("category", .str "Housing"), ("date", .str "2024-01-01"),
       ("transactionHash", .str "0xabc")] dbW
      = (msgResponse 400 "Invalid amount format", dbW) :=
  C3_invalid_amount envW _ dbW (by rfl) (by rfl)

/-! ### C4 — error propagation at the handler boundary -/

/-- C4 counterexample: when the store fails, the `GET /records` handler —
whose body has no `try`/`except` — lets the exception escape uncaught
instead of converting it to a structured JSON error payload. -/
theorem C4_counterexample :
    get_records envFail dbW = .uncaught "MySQL server has gone away" := rfl

/-- C4 amended: the insert handler converts every error to a structured
JSON payload (its body is always a JSON object with a `message` field),
but the query handler catches nothing: a store failure propagates out of
it uncaught. -/
theorem C4_insert_structured_get_uncaught (env : Env)
    (data : List (String × JValue)) (db : DBState) :
    structuredMessage (add_record env data db).1.body = true ∧
    (∀ m, env.dbFail = some m → get_records env db = .uncaught m) := by
  constructor
  · simp only [add_record]
    split
    · rfl
    · split
      · rfl
      · rfl
      · split
        · rfl
        · split
          · rfl
          · rfl
  · intro m hm
    simp [get_records, hm]

/-- C4 witness: with a failing store, the POST response body is still a
structured message object, while the GET handler raises uncaught. -/
theorem C4_witness :
    structuredMessage (add_record envFail goodBody dbW).1.body = true ∧
    get_records envFail dbW = .uncaught "MySQL server has gone away" :=
  ⟨(C4_insert_structured_get_uncaught envFail goodBody dbW).1,
   (C4_insert_structured_get_uncaught envFail goodBody dbW).2 _ rfl⟩

/-! ### C5 — the stored datetime -/

/-- C5: whenever an insert succeeds (HTTP 201), the stored `datetime` of
the new row is the caller-supplied `date` string, a space, and the
stripped output of the server's time-of-day read at the moment of insert —
so the stored value has both a date and a time component even though the
caller supplied only a date. -/
theorem C5_datetime_date_plus_time (env : Env) (data : List (String × JValue))
    (db : DBState) (h : (add_record env data db).1.status = 201) :
    ∃ (ds : String) (r : Row),
      dictGet data "date" .null = .str ds ∧
      (add_record env data db).2.rows = db.rows ++ [r] ∧
      r.datetime = ds ++ (" " ++ pyStrip env.timeRaw) := by
  revert h
  simp only [add_record]
  split
  · intro h
    exact absurd h (by simp [msgResponse])
  · split
    · intro h
      exact absurd h (by simp [msgResponse])
    · intro h
      exact absurd h (by simp [errorResponse])
    · split
      · intro h
        exact absurd h (by simp [errorResponse])
      · split
        next heq =>
          intro h
          exact absurd h (by simp [errorResponse])
        next dt heq =>
          intro _
          rcases hval : dictGet data "date" .null with _ | b | q | s | xs | fs <;>
            rw [hval] at heq <;> simp only [pyAddStr] at heq <;>
            try exact Option.noConfusion heq
          obtain rfl : s ++ (" " ++ pyStrip env.timeRaw) = dt := by injection heq
          exact ⟨s, _, rfl, rfl, rfl⟩

/-- C5 witness: inserting the sample payload stores
`"2024-01-01 12:34:56"`. -/
theorem C5_witness :
    ∃ (ds : String) (r : Row),
      dictGet goodBody "date" .null = .str ds ∧
      (add_record envW goodBody dbW).2.rows = dbW.rows ++ [r] ∧
      r.datetime = ds ++ (" " ++ pyStrip envW.timeRaw) :=
  C5_datetime_date_plus_time envW goodBody dbW (by rfl)

/-! ### C6 — the success path of the insert -/

/-- A payload whose `date` is the (truthy) number `20240101` instead of a
string; it passes both validation steps. -/
def cexBody6 : List (String × JValue) :=
  [("description", .str "Rent"), ("amount", .str "4.50"),
   ("category", .str "Housing"), ("date", .num 20240101),
   ("transactionHash", .str "0xabc")]

/-- C6 counterexample: `cexBody6` passes the required-field check and its
`amount` converts, yet the handler neither appends a row nor answers 201:
concatenating the non-string `date` with the time-of-day string raises
`TypeError`, so the handler answers 500 and the table is unchanged. -/
theorem C6_counterexample :
    requiredTruthy cexBody6 = true ∧
    (∃ f : PyFloat, floatConv (dictGet cexBody6 "amount" .null) = .ok f) ∧
    add_record envW cexBody6 dbW = (errorResponse concatTypeErrorMsg, dbW) := by
  refine ⟨rfl, ?_, by rfl⟩
  exact ⟨_, rfl⟩

/-- C6 amended: when the store is healthy, the payload passes both
validation steps and its `date` value is a string, the handler appends
exactly one row carrying the seven persisted fields — the converted
amount, the computed datetime, and `tx_hash` bound to the submitted
`transactionHash` — and answers 201 with the store-assigned id of that
row. -/
theorem C6_insert_success (env : Env) (data : List (String × JValue))
    (db : DBState) (hdb : env.dbFail = none)
    (hreq : requiredTruthy data = true)
    (f : PyFloat) (hconv : floatConv (dictGet data "amount" .null) = .ok f)
    (ds : String) (hdate : dictGet data "date" .null = .str ds) :
    add_record env data db =
      ({ status := 201
         body := .obj [("message", .str "Record added successfully!"),
                       ("id", .num db.nextId)] },
       { rows := db.rows ++
           [{ id := db.nextId
              description := dictGet data "description" .null
              amount := f
              category := dictGet data "category" .null
              datetime := ds ++ (" " ++ pyStrip env.timeRaw)
              notes := dictGet data "notes" (.str "")
              status := dictGet data "status" (.str "Original")
              tx_hash := dictGet data "transactionHash" .null }]
         nextId := db.nextId + 1 }) := by
  have h5 := hreq
  simp only [requiredTruthy, Bool.and_eq_true] at h5
  obtain ⟨⟨⟨⟨h1, h2⟩, h3⟩, h4⟩, h5⟩ := h5
  rw [hdate] at h4
  simp [add_record, h1, h2, h3, h4, h5, hconv, hdb, hdate, pyAddStr]

/-- C6 witness: inserting the sample payload into the empty table with
counter 7 appends the expected row and answers 201 with id 7. -/
theorem C6_witness :
    ∃ f : PyFloat,
      add_record envW goodBody dbW =
        ({ status := 201
           body := .obj [("message", .str "Record added successfully!"),
                         ("id", .num 7)] },
         { rows := [{ id := 7, description := .str "Coffee", amount := f
                      category := .str "Food", datetime := "2024-01-01 12:34:56"
                      notes := .str "", status := .str "Original"
                      tx_hash := .str "0xabc" }]
           nextId := 8 }) :=
  ⟨_, C6_insert_success envW goodBody dbW rfl rfl _ (by rfl) "2024-01-01" rfl⟩

/-! ### C7 — rejections have no side effect -/

/-- C7: whenever the insert handler answers with a 400 outcome (missing
field or invalid amount), the rejection happened before any persistence
step and the table state is exactly what it was before the request. -/
theorem C7_reject_leaves_table_unchanged (env : Env)
    (data : List (String × JValue)) (db : DBState)
    (h : (add_record env data db).1.status = 400) :
    (add_record env data db).2 = db := by
  revert h
  simp only [add_record]
  split
  · intro _
    rfl
  · split
    · intro _
      rfl
    · intro _
      rfl
    · split
      · intro _
        rfl
      · split
        · intro _
          rfl
        · intro h
          exact absurd h (by simp)

/-- C7 witness: the payload rejected for its falsy `amount` leaves the
table untouched. -/
theorem C7_witness : (add_record envW cexBody2 dbW).2 = dbW :=
  C7_reject_leaves_table_unchanged envW cexBody2 dbW (by rfl)

/-! ### C8 — defaults for absent notes and status -/

/-- C8: on a successful insert, an absent `notes` key is stored as the
empty string and an absent `status` key is stored as `"Original"`. -/
theorem C8_absent_keys_defaulted (env : Env) (data : List (String × JValue))
    (db : DBState) (h : (add_record env data db).1.status = 201) :
    (dictFind data "notes" = none →
      ∃ r, (add_record env data db).2.rows = db.rows ++ [r] ∧
        r.notes = .str "") ∧
    (dictFind data "status" = none →
      ∃ r, (add_record env data db).2.rows = db.rows ++ [r] ∧
        r.status = .str "Original") := by
  revert h
  simp only [add_record]
  split
  · intro h
    exact absurd h (by simp [msgResponse])
  · split
    · intro h
      exact absurd h (by simp [msgResponse])
    · intro h
      exact absurd h (by simp [errorResponse])
    · split
      · intro h
        exact absurd h (by simp [errorResponse])
      · split
        · intro h
          exact absurd h (by simp [errorResponse])
        · intro _
          constructor
          · intro hn
            refine ⟨_, rfl, ?_⟩
            simp [dictGet, hn]
          · intro hs
            refine ⟨_, rfl, ?_⟩
            simp [dictGet, hs]

/-- C8 witness: the sample payload omits both optional keys; the stored
row carries `""` and `"Original"`. -/
theorem C8_witness :
    (∃ r, (add_record envW goodBody dbW).2.rows = dbW.rows ++ [r] ∧
      r.notes = .str "") ∧
    (∃ r, (add_record envW goodBody dbW).2.rows = dbW.rows ++ [r] ∧
      r.status = .str "Original") :=
  ⟨(C8_absent_keys_defaulted envW goodBody dbW (by rfl)).1 rfl,
   (C8_absent_keys_defaulted envW goodBody dbW (by rfl)).2 rfl⟩

/-! ### C9 — store failure during persistence -/

/-- C9: when an unexpected failure occurs during persistence — the store
operations raise with some diagnostic — on a payload that passed both
validation steps, the handler answers 500 with
`{"message": "Internal server error", "error": <diagnostic>}` and performs
no retry (the table is left as it was). -/
theorem C9_persistence_failure_500 (env : Env) (data : List (String × JValue))
    (db : DBState) (m : String) (hdb : env.dbFail = some m)
    (hreq : requiredTruthy data = true)
    (f : PyFloat) (hconv : floatConv (dictGet data "amount" .null) = .ok f) :
    add_record env data db = (errorResponse m, db) := by
  have h5 := hreq
  simp only [requiredTruthy, Bool.and_eq_true] at h5
  obtain ⟨⟨⟨⟨h1, h2⟩, h3⟩, h4⟩, h5⟩ := h5
  simp [add_record, h1, h2, h3, h4, h5, hconv, hdb]

/-- C9 witness: the valid sample payload against the failing store yields
the diagnostic 500 response. -/
theorem C9_witness :
    add_record envFail goodBody dbW =
      (errorResponse "MySQL server has gone away", dbW) :=
  C9_persistence_failure_500 envFail goodBody dbW _ rfl rfl _ (by rfl)

/-! ### C10 — explicit JSON null is stored, not defaulted -/

/-- C10: the defaulting of `notes` and `status` applies only to absent
keys: a key present with JSON `null` makes `dict.get` return `None`, so a
successful insert stores null for that field instead of the documented
default. -/
theorem C10_explicit_null_stored (env : Env) (data : List (String × JValue))
    (db : DBState) (h : (add_record env data db).1.status = 201) :
    (dictFind data "notes" = some .null →
      ∃ r, (add_record env data db).2.rows = db.rows ++ [r] ∧
        r.notes = .null) ∧
    (dictFind data "status" = some .null →
      ∃ r, (add_record env data db).2.rows = db.rows ++ [r] ∧
        r.status = .null) := by
  revert h
  simp only [add_record]
  split
  · intro h
    exact absurd h (by simp [msgResponse])
  · split
    · intro h
      exact absurd h (by simp [msgResponse])
    · intro h
      exact absurd h (by simp [errorResponse])
    · split
      · intro h
        exact absurd h (by simp [errorResponse])
      · split
        · intro h
          exact absurd h (by simp [errorResponse])
        · intro _
          constructor
          · intro hn
            refine ⟨_, rfl, ?_⟩
            simp [dictGet, hn]
          · intro hs
            refine ⟨_, rfl, ?_⟩
            simp [dictGet, hs]

/-- A valid payload that carries `notes` and `status` with an explicit
JSON `null`. -/
def nullBody : List (String × JValue) :=
  [("description", .str "Coffee"), ("amount", .str "4.50"),
   ("category", .str "Food"), ("date", .str "2024-01-01"),
   ("transactionHash", .str "0xabc"), ("notes", .null), ("status", .null)]

/-- C10 witness: inserting `nullBody` succeeds and stores null for both
optional fields. -/
theorem C10_witness :
    (∃ r, (add_record envW nullBody dbW).2.rows = dbW.rows ++ [r] ∧
      r.notes = .null) ∧
    (∃ r, (add_record envW nullBody dbW).2.rows = dbW.rows ++ [r] ∧
      r.status = .null) :=
  ⟨(C10_explicit_null_stored envW nullBody dbW (by rfl)).1 rfl,
   (C10_explicit_null_stored envW nullBody dbW (by rfl)).2 rfl⟩

end TxStore
